import Mathlib

/-!
# Verification of the YAML-preview renderer (`src/extension.ts`)

Shallow embedding of the rendering core of the `md-in-yaml` VS Code
extension.  The embedded functions mirror the first source variant of
`src/extension.ts` (the second variant inlines the same helpers and is
behaviourally identical): `renderObject`, `renderArray`, `renderItem`,
`renderArrayObjectItem`, `renderObjectEntry`, `renderObjectProperties`,
`getWebviewContent` and `updateWebviewContent`.

Modelling choices:
* A value produced by `yaml.load` is modelled by `JsValue`
  (string / number / boolean / null / array / object).  Numbers are
  modelled as `Int`; object pairs are kept in `Object.entries` order and
  are assumed key-distinct, as JavaScript objects are.
* `md.render` of the external markdown-it engine is an abstract pure
  function parameter `md : String → String`.
* JavaScript exceptions are modelled by `Except String`:
  `null.toString()` and `Object.entries(null)` throw `TypeError`s, so the
  corresponding branches return `Except.error` with the V8 message.
* The inline `.map`/`.join` lambdas of the source are named list
  recursors (`renderItems`, `renderEntries`, `renderProps`) so that the
  recursion is visible; `renderProps` fuses the source's
  `.filter(([key]) => !(isRoot && key === "Title"))` with the subsequent
  `.map`, which computes the same list.
-/

/-- A JavaScript value as produced by `yaml.load`. -/
inductive JsValue where
  | str (s : String)
  | num (n : Int)
  | boolean (b : Bool)
  | null
  | arr (items : List JsValue)
  | obj (pairs : List (String × JsValue))
deriving Repr

/-- V8 message of the `TypeError` thrown by `null.toString()`
(the `obj.toString()` fallback branch of `renderObject`). -/
def nullToStringError : String :=
  "Cannot read properties of null (reading \x27toString\x27)"

/-- V8 message of the `TypeError` thrown by `Object.entries(null)`
(reached when a `null` array item is routed to `renderArrayObjectItem`,
since `typeof null === "object"` and `!Array.isArray(null)`). -/
def nullEntriesError : String :=
  "Cannot convert undefined or null to object"

/-- `obj["Title"]` when it is a string: the guard
`obj && typeof obj["Title"] === "string"` of `renderObject`.  Property
access on non-objects yields `undefined` (and falsy scalars fail the
`obj &&` test), so only object values can produce a title. -/
def titleOf : JsValue → Option String
  | .obj pairs =>
      match pairs.lookup "Title" with
      | some (.str t) => some t
      | _ => none
  | _ => none

/-- The tail of `renderObject`:
`if (isRoot && obj && typeof obj["Title"] === "string") htmlContent =
 `<h1>${md.render(obj["Title"])}</h1>` + htmlContent`. -/
def withTitle (obj : JsValue) (md : String → String) (isRoot : Bool)
    (htmlContent : String) : String :=
  match isRoot, titleOf obj with
  | true, some t => "<h1>" ++ md t ++ "</h1>" ++ htmlContent
  | _, _ => htmlContent

mutual

/-- `renderObject(obj, md, isRoot)`: dispatch on the runtime shape of
`obj`, then prepend the root title heading. -/
def renderObject (obj : JsValue) (md : String → String) (isRoot : Bool) :
    Except String String :=
  (match obj with
   | .arr items => renderArray items md
   | .obj pairs => renderObjectProperties pairs md isRoot
   | .str s => Except.ok (md s)
   | .num n => Except.ok (toString n)
   | .boolean b => Except.ok (cond b "true" "false")
   | .null => Except.error nullToStringError
  ).map (withTitle obj md isRoot)
termination_by (sizeOf obj, 0)

/-- `renderArray(objArray, md)`. -/
def renderArray (items : List JsValue) (md : String → String) :
    Except String String :=
  (renderItems items md).map (fun parts => "<ul>" ++ String.join parts ++ "</ul>")
termination_by (sizeOf items, 2)

/-- The `objArray.map((item) => renderItem(item, md))` traversal of
`renderArray` (JavaScript `.map` evaluates left to right, so the first
exception wins). -/
def renderItems (items : List JsValue) (md : String → String) :
    Except String (List String) :=
  match items with
  | [] => Except.ok []
  | item :: rest =>
      match renderItem item md with
      | Except.error e => Except.error e
      | Except.ok h =>
          match renderItems rest md with
          | Except.error e => Except.error e
          | Except.ok t => Except.ok (h :: t)
termination_by (sizeOf items, 1)

/-- `renderItem(item, md)`.  A `null` item satisfies
`typeof item === "object" && !Array.isArray(item)` and is passed to
`renderArrayObjectItem`, where `Object.entries(null)` throws. -/
def renderItem (item : JsValue) (md : String → String) :
    Except String String :=
  match item with
  | .obj pairs => renderArrayObjectItem pairs md
  | .null => Except.error nullEntriesError
  | .arr xs => (renderObject (.arr xs) md false).map (fun s => "<li>" ++ s ++ "</li>")
  | .str s => (renderObject (.str s) md false).map (fun h => "<li>" ++ h ++ "</li>")
  | .num n => (renderObject (.num n) md false).map (fun s => "<li>" ++ s ++ "</li>")
  | .boolean b => (renderObject (.boolean b) md false).map (fun s => "<li>" ++ s ++ "</li>")
termination_by (sizeOf item, 1)

/-- `renderArrayObjectItem(item, md)`. -/
def renderArrayObjectItem (pairs : List (String × JsValue))
    (md : String → String) : Except String String :=
  (renderEntries pairs md).map String.join
termination_by (sizeOf pairs, 2)

/-- The `Object.entries(item).map(([key, value]) =>
renderObjectEntry(key, value, md))` traversal of `renderArrayObjectItem`. -/
def renderEntries (pairs : List (String × JsValue)) (md : String → String) :
    Except String (List String) :=
  match pairs with
  | [] => Except.ok []
  | (k, v) :: rest =>
      match renderObjectEntry k v md with
      | Except.error e => Except.error e
      | Except.ok h =>
          match renderEntries rest md with
          | Except.error e => Except.error e
          | Except.ok t => Except.ok (h :: t)
termination_by (sizeOf pairs, 1)

/-- `renderObjectEntry(key, value, md)`. -/
def renderObjectEntry (key : String) (value : JsValue)
    (md : String → String) : Except String String :=
  (renderObject value md false).map (fun valueHtml =>
    match value with
    | .arr _ => "<li>" ++ key ++ ": " ++ valueHtml ++ "</li>"
    | _ => "<li>" ++ key ++ ":<ul>" ++ valueHtml ++ "</ul></li>")
termination_by (sizeOf value, 1)

/-- The `Object.entries(obj).filter(([key]) => !(isRoot && key ===
"Title")).map(([key, value]) => `<li>${key}: ${renderObject(value, md,
false)}</li>`)` traversal of `renderObjectProperties`, with the filter
fused into the map. -/
def renderProps (pairs : List (String × JsValue)) (md : String → String)
    (isRoot : Bool) : Except String (List String) :=
  match pairs with
  | [] => Except.ok []
  | (k, v) :: rest =>
      if isRoot && k == "Title" then renderProps rest md isRoot
      else
        match renderObject v md false with
        | Except.error e => Except.error e
        | Except.ok valueHtml =>
            match renderProps rest md isRoot with
            | Except.error e => Except.error e
            | Except.ok t =>
                Except.ok (("<li>" ++ k ++ ": " ++ valueHtml ++ "</li>") :: t)
termination_by (sizeOf pairs, 1)

/-- `renderObjectProperties(obj, md, isRoot)`. -/
def renderObjectProperties (pairs : List (String × JsValue))
    (md : String → String) (isRoot : Bool) : Except String String :=
  (renderProps pairs md isRoot).map (fun parts =>
    let innerContent := String.join parts
    if isRoot then innerContent else "<ul>" ++ innerContent ++ "</ul>")
termination_by (sizeOf pairs, 2)

end

/-- The identity markdown engine, used to instantiate the abstract
`md : String → String` parameter at concrete inputs. -/
def mdId : String → String := id

/-- The `style` template literal of `getWebviewContent`. -/
def styleBlock : String :=
  "\n  <style>\n      body \x7b font-family: Arial, sans-serif; line-height: 1.2; \x7d\n      dl \x7b margin: 2px 0; \x7d\n      dt \x7b font-weight: bold; \x7d\n      dd \x7b margin: 1px 0 2px 16px; \x7d\n      ul, ol \x7b margin: 2px 0 2px 8px; padding-left: 20px; \x7d\n      li \x7b margin: 0.5px 0; \x7d\n      p \x7b margin: 0; margin-top: 4px; \x7d\n      h1, h2, h3, h4, h5 \x7b margin: 0; margin-top: 4px; margin-bottom: 4px; \x7d\n  </style>\n  "

/-- The `script` template literal of `getWebviewContent` (the
scroll-sync listener injected into the webview). -/
def scriptBlock : String :=
  "<script>\n  // Listen for messages sent from the VS Code extension\n  window.addEventListener(\x27message\x27, event => \x7b\n    console.log(event);\n    const message = event.data;\n    // Adjust the scroll position of the preview page based on the received scroll percentage\n    if (message.type === \x27scroll\x27) \x7b\n      window.scrollTo(0, document.body.scrollHeight * message.percentage);\n    \x7d\n  \x7d);\n</script>"

/-- `getWebviewContent(content, md)`: the document shell around the
rendered body; a render-time exception propagates to the caller. -/
def getWebviewContent (content : JsValue) (md : String → String) :
    Except String String :=
  (renderObject content md true).map (fun rendered =>
    let body := "<ul>" ++ rendered ++ "</ul>"
    "<html><head>" ++ scriptBlock ++ styleBlock ++ "</head><body>" ++ body
      ++ "</body></html>")

/-- The error page assigned in the `catch` branch of
`updateWebviewContent`: `` `<html><body><p>Error parsing YAML:
${e.message}</p></body></html>` ``. -/
def errorHtml (msg : String) : String :=
  "<html><body><p>Error parsing YAML: " ++ msg ++ "</p></body></html>"

/-- `updateWebviewContent`, parameterised by the content-to-HTML
function it calls inside the `try` block.  `yaml.load` is external, so
its outcome is the `parseResult` argument; the function returns the new
`panel.webview.html`, given the previous one (`oldHtml`), which is kept
when the document is not YAML-typed. -/
def updateWebviewContentWith
    (toHtml : JsValue → (String → String) → Except String String)
    (languageId : String) (parseResult : Except String JsValue)
    (md : String → String) (oldHtml : String) : String :=
  if languageId = "yaml" then
    match parseResult with
    | Except.error e => errorHtml e
    | Except.ok content =>
        match toHtml content md with
        | Except.ok html => html
        | Except.error e => errorHtml e
  else oldHtml

/-- `updateWebviewContent(document, panel, fileName, md)` restricted to
its effect on `panel.webview.html`. -/
def updateWebviewContent (languageId : String)
    (parseResult : Except String JsValue) (md : String → String)
    (oldHtml : String) : String :=
  updateWebviewContentWith getWebviewContent languageId parseResult md oldHtml

mutual

/-- `true` iff the value contains no `null` scalar (the only shape on
which the renderer's `toString`/`Object.entries` fallbacks throw). -/
def noNull : JsValue → Bool
  | .str _ => true
  | .num _ => true
  | .boolean _ => true
  | .null => false
  | .arr items => noNullItems items
  | .obj pairs => noNullPairs pairs

/-- `noNull` over a list of array items. -/
def noNullItems : List JsValue → Bool
  | [] => true
  | i :: rest => noNull i && noNullItems rest

/-- `noNull` over the values of an object's entries. -/
def noNullPairs : List (String × JsValue) → Bool
  | [] => true
  | (_, v) :: rest => noNull v && noNullPairs rest

end

/-- A scalar on which the `renderObject` fallbacks are exception-free:
a string, number or boolean (not `null`, not an array, not an object). -/
def isNonNullScalar : JsValue → Bool
  | .str _ => true
  | .num _ => true
  | .boolean _ => true
  | _ => false

/-- The HTML the renderer produces for an exception-free scalar:
`md.render` for strings, JavaScript `toString` for numbers and
booleans. -/
def scalarHtml (md : String → String) : JsValue → String
  | .str s => md s
  | .num n => toString n
  | .boolean b => cond b "true" "false"
  | _ => ""

/-- Modelled from the spec: the depth-aware source variants are absent
from the repository snapshot (`src/extension.ts` holds only the two
depth-free variants), so the heading-promotion policy of §4.1 is taken
from the spec's words — a mapping key at nesting depth `d` is wrapped in
a heading element of level `min(1 + d, 5)` when `d < 5`, and left as
plain text when `d ≥ 5`. -/
def headingKey (key : String) (depth : Nat) : String :=
  if depth < 5 then
    "<h" ++ toString (min (1 + depth) 5) ++ ">" ++ key
      ++ "</h" ++ toString (min (1 + depth) 5) ++ ">"
  else key

/-- Modelled from the spec: in the depth-aware variants a mapping entry
at depth `d` is emitted as a list item whose key part is `headingKey`
applied at `d`, followed by the rendered value HTML. -/
def renderEntryAtDepth (key valueHtml : String) (depth : Nat) : String :=
  "<li>" ++ headingKey key depth ++ ": " ++ valueHtml ++ "</li>"

/-- Modelled from the spec: the entries of a mapping rendered at depth
`d`, given the already-rendered value HTML of each entry. -/
def renderPropsAtDepth (pairs : List (String × String)) (depth : Nat) :
    List String :=
  pairs.map (fun kv => renderEntryAtDepth kv.1 kv.2 depth)

/-- Number of occurrences of `pat` (as a contiguous character run) in a
character list; used to state wrapping-count properties of the produced
HTML. -/
def countOccs (pat : List Char) : List Char → Nat
  | [] => 0
  | c :: rest =>
      (if pat.isPrefixOf (c :: rest) then 1 else 0) + countOccs pat rest

/-! ## Helper lemmas -/

theorem withTitle_not_root (obj : JsValue) (md : String → String)
    (h : String) : withTitle obj md false h = h := by
  simp [withTitle]

theorem exists_ok_of_isOk {x : Except String String}
    (h : x.isOk = true) : ∃ s, x = Except.ok s := by
  cases x with
  | error e => simp [Except.isOk, Except.toBool] at h
  | ok s => exact ⟨s, rfl⟩

mutual

theorem renderObject_ok (obj : JsValue) (md : String → String) (isRoot : Bool)
    (h : noNull obj = true) : (renderObject obj md isRoot).isOk = true :=
  match obj, h with
  | .str s, _ => by simp [renderObject, Except.map, Except.isOk, Except.toBool]
  | .num n, _ => by simp [renderObject, Except.map, Except.isOk, Except.toBool]
  | .boolean b, _ => by simp [renderObject, Except.map, Except.isOk, Except.toBool]
  | .null, h => by simp [noNull] at h
  | .arr items, h => by
      have hp := renderItems_ok items md (by simpa [noNull] using h)
      cases hx : renderItems items md with
      | error e => rw [hx] at hp; simp [Except.isOk, Except.toBool] at hp
      | ok parts =>
          simp [renderObject, renderArray, hx, Except.map, Except.isOk, Except.toBool]
  | .obj pairs, h => by
      have hp := renderProps_ok pairs md isRoot (by simpa [noNull] using h)
      cases hx : renderProps pairs md isRoot with
      | error e => rw [hx] at hp; simp [Except.isOk, Except.toBool] at hp
      | ok parts =>
          simp [renderObject, renderObjectProperties, hx, Except.map, Except.isOk,
            Except.toBool]
termination_by (sizeOf obj, 0)

theorem renderItems_ok (items : List JsValue) (md : String → String)
    (h : noNullItems items = true) : (renderItems items md).isOk = true :=
  match items, h with
  | [], _ => by simp [renderItems, Except.isOk, Except.toBool]
  | i :: rest, h => by
      have h2 : noNull i = true ∧ noNullItems rest = true := by
        simpa [noNullItems, Bool.and_eq_true] using h
      have hs := renderItem_ok i md h2.1
      have ht := renderItems_ok rest md h2.2
      cases hx : renderItem i md with
      | error e => rw [hx] at hs; simp [Except.isOk, Except.toBool] at hs
      | ok s =>
          cases hy : renderItems rest md with
          | error e => rw [hy] at ht; simp [Except.isOk, Except.toBool] at ht
          | ok t => simp [renderItems, hx, hy, Except.isOk, Except.toBool]
termination_by (sizeOf items, 2)

theorem renderItem_ok (item : JsValue) (md : String → String)
    (h : noNull item = true) : (renderItem item md).isOk = true :=
  match item, h with
  | .null, h => by simp [noNull] at h
  | .obj pairs, h => by
      have hp := renderEntries_ok pairs md (by simpa [noNull] using h)
      cases hx : renderEntries pairs md with
      | error e => rw [hx] at hp; simp [Except.isOk, Except.toBool] at hp
      | ok parts =>
          simp [renderItem, renderArrayObjectItem, hx, Except.map, Except.isOk,
            Except.toBool]
  | .str s, _ => by
      simp [renderItem, renderObject, Except.map, Except.isOk, Except.toBool]
  | .num n, _ => by
      simp [renderItem, renderObject, Except.map, Except.isOk, Except.toBool]
  | .boolean b, _ => by
      simp [renderItem, renderObject, Except.map, Except.isOk, Except.toBool]
  | .arr xs, h => by
      have hs := renderObject_ok (.arr xs) md false h
      cases hx : renderObject (.arr xs) md false with
      | error e => rw [hx] at hs; simp [Except.isOk, Except.toBool] at hs
      | ok s => simp [renderItem, hx, Except.map, Except.isOk, Except.toBool]
termination_by (sizeOf item, 1)

theorem renderEntries_ok (pairs : List (String × JsValue))
    (md : String → String) (h : noNullPairs pairs = true) :
    (renderEntries pairs md).isOk = true :=
  match pairs, h with
  | [], _ => by simp [renderEntries, Except.isOk, Except.toBool]
  | (k, v) :: rest, h => by
      have h2 : noNull v = true ∧ noNullPairs rest = true := by
        simpa [noNullPairs, Bool.and_eq_true] using h
      have hs := renderObject_ok v md false h2.1
      have ht := renderEntries_ok rest md h2.2
      cases hx : renderObject v md false with
      | error e => rw [hx] at hs; simp [Except.isOk, Except.toBool] at hs
      | ok s =>
          cases hy : renderEntries rest md with
          | error e => rw [hy] at ht; simp [Except.isOk, Except.toBool] at ht
          | ok t =>
              simp [renderEntries, renderObjectEntry, hx, hy, Except.map,
                Except.isOk, Except.toBool]
termination_by (sizeOf pairs, 2)

theorem renderProps_ok (pairs : List (String × JsValue))
    (md : String → String) (isRoot : Bool) (h : noNullPairs pairs = true) :
    (renderProps pairs md isRoot).isOk = true :=
  match pairs, h with
  | [], _ => by simp [renderProps, Except.isOk, Except.toBool]
  | (k, v) :: rest, h => by
      have h2 : noNull v = true ∧ noNullPairs rest = true := by
        simpa [noNullPairs, Bool.and_eq_true] using h
      have hs := renderObject_ok v md false h2.1
      have ht := renderProps_ok rest md isRoot h2.2
      cases hx : renderObject v md false with
      | error e => rw [hx] at hs; simp [Except.isOk, Except.toBool] at hs
      | ok s =>
          cases hy : renderProps rest md isRoot with
          | error e => rw [hy] at ht; simp [Except.isOk, Except.toBool] at ht
          | ok t =>
              by_cases hk : (isRoot && k == "Title") = true
              · simp [renderProps, hk, hy, Except.isOk, Except.toBool]
              · simp [renderProps, hk, hx, hy, Except.isOk, Except.toBool]
termination_by (sizeOf pairs, 2)

end

/-! ## Claims -/

/-- C1: in the depth-aware rendering modelled from the spec (the
depth-aware source variants are absent from the snapshot), a mapping
entry emitted at nesting depth `d` wraps its key in a heading element of
level `min(1 + d, 5)` when `d < 5` — depth 0 gives h1, depth 1 gives h2,
depth 4 saturates at h5 — and at depth `d ≥ 5` the key appears as plain
text with no heading wrapper. -/
theorem claim1_heading_promotion (key valueHtml : String) (d : Nat)
    (pairs : List (String × String)) :
    renderPropsAtDepth pairs d
        = pairs.map (fun kv => "<li>" ++ headingKey kv.1 d ++ ": " ++ kv.2 ++ "</li>")
    ∧ renderEntryAtDepth key valueHtml d
        = "<li>" ++ headingKey key d ++ ": " ++ valueHtml ++ "</li>"
    ∧ (d < 5 → headingKey key d =
        "<h" ++ toString (min (1 + d) 5) ++ ">" ++ key
          ++ "</h" ++ toString (min (1 + d) 5) ++ ">")
    ∧ (5 ≤ d → headingKey key d = key)
    ∧ min (1 + 0) 5 = 1 ∧ min (1 + 1) 5 = 2 ∧ min (1 + 4) 5 = 5
    ∧ min (1 + 10) 5 = 5 := by
  refine ⟨?_, rfl, ?_, ?_, by decide, by decide, by decide, by decide⟩
  · simp [renderPropsAtDepth, renderEntryAtDepth]
  · intro hd
    simp [headingKey, hd]
  · intro hd
    simp [headingKey, Nat.not_lt.mpr hd]

/-- Closed instance of `claim1_heading_promotion` at depths 0 and 5. -/
theorem claim1_heading_promotion_witness :
    headingKey "k" 0 = "<h" ++ toString (min (1 + 0) 5) ++ ">" ++ "k"
      ++ "</h" ++ toString (min (1 + 0) 5) ++ ">"
    ∧ headingKey "k" 5 = "k" :=
  ⟨(claim1_heading_promotion "k" "v" 0 []).2.2.1 (by decide),
   (claim1_heading_promotion "k" "v" 5 []).2.2.2.1 (by decide)⟩

/-- C2 fails as stated: on the well-formed parsed tree consisting of a
single null scalar, `renderObject` raises a `TypeError`
(`null.toString()`) instead of returning an HTML string. -/
theorem claim2_total_render_counterexample :
    renderObject JsValue.null mdId true = Except.error nullToStringError := by
  simp [renderObject, Except.map]

/-- C2 (amended): for every parsed tree containing no null scalar, the
renderer terminates without an exception and returns an HTML string;
non-string scalars fall back to their plain-text stringification. -/
theorem claim2_total_render (obj : JsValue) (md : String → String)
    (isRoot : Bool) (h : noNull obj = true) :
    (∃ s, renderObject obj md isRoot = Except.ok s)
    ∧ (∀ n : Int, renderObject (JsValue.num n) md false = Except.ok (toString n))
    ∧ (∀ b : Bool, renderObject (JsValue.boolean b) md false
        = Except.ok (cond b "true" "false")) := by
  refine ⟨exists_ok_of_isOk (renderObject_ok obj md isRoot h), ?_, ?_⟩
  · intro n
    simp [renderObject, Except.map, withTitle_not_root]
  · intro b
    simp [renderObject, Except.map, withTitle_not_root]

/-- Closed instance of `claim2_total_render` on a concrete null-free tree. -/
theorem claim2_total_render_witness :
    ∃ s, renderObject
        (JsValue.obj [("a", JsValue.arr [JsValue.str "x", JsValue.num 2])])
        mdId true = Except.ok s :=
  (claim2_total_render _ mdId true
    (by simp [noNull, noNullPairs, noNullItems])).1

/-- C3 fails as stated: in `renderObjectProperties`, the entry for key
"a" with scalar string value "x" is emitted as `<li>a: x</li>` — the
rendered scalar value is not wrapped in any nested list container (zero
occurrences of `<ul>` inside the item), not in exactly one. -/
theorem claim3_value_shape_counterexample :
    renderProps [("a", JsValue.str "x")] mdId false
        = Except.ok ["<li>a: x</li>"]
    ∧ countOccs "<ul>".data "<li>a: x</li>".data = 0 := by
  constructor
  · simp [renderProps, renderObject, Except.map, withTitle_not_root, mdId]
  · decide

/-- C3 (amended): entries of a mapping that occurs as a sequence item
(`renderObjectEntry`) use a Sequence value's rendered list markup
directly (no added container) and wrap every Mapping or scalar value in
one added list container (a Mapping value's own markup already carries
a container, so it ends up doubly wrapped); entries rendered by
`renderObjectProperties` use the rendered value directly, with no added
container, for every value shape. -/
theorem claim3_value_shape (k : String) (v : JsValue) (md : String → String)
    (h : String) (isRoot : Bool) (rest : List (String × JsValue))
    (t : List String)
    (hv : renderObject v md false = Except.ok h)
    (hk : (isRoot && k == "Title") = false)
    (ht : renderProps rest md isRoot = Except.ok t) :
    (∀ items, v = JsValue.arr items →
        renderObjectEntry k v md = Except.ok ("<li>" ++ k ++ ": " ++ h ++ "</li>"))
    ∧ ((∀ items, v ≠ JsValue.arr items) →
        renderObjectEntry k v md
          = Except.ok ("<li>" ++ k ++ ":<ul>" ++ h ++ "</ul></li>"))
    ∧ renderProps ((k, v) :: rest) md isRoot
        = Except.ok (("<li>" ++ k ++ ": " ++ h ++ "</li>") :: t) := by
  refine ⟨?_, ?_, ?_⟩
  · rintro items rfl
    simp [renderObjectEntry, hv, Except.map]
  · intro hna
    cases v with
    | arr items => exact absurd rfl (hna items)
    | str s => simp [renderObjectEntry, hv, Except.map]
    | num n => simp [renderObjectEntry, hv, Except.map]
    | boolean b => simp [renderObjectEntry, hv, Except.map]
    | null => simp [renderObjectEntry, hv, Except.map]
    | obj pairs => simp [renderObjectEntry, hv, Except.map]
  · simp [renderProps, hk, hv, ht]

/-- Closed instance of `claim3_value_shape`: a sequence value is used
directly by `renderObjectEntry`, a scalar value is used directly by
`renderProps`. -/
theorem claim3_value_shape_witness :
    renderObjectEntry "a" (JsValue.arr [JsValue.str "x"]) mdId
        = Except.ok ("<li>" ++ "a" ++ ": " ++ "<ul><li>x</li></ul>" ++ "</li>")
    ∧ renderProps [("a", JsValue.str "x")] mdId false
        = Except.ok (("<li>" ++ "a" ++ ": " ++ "x" ++ "</li>") :: []) :=
  ⟨(claim3_value_shape "a" (JsValue.arr [JsValue.str "x"]) mdId
      "<ul><li>x</li></ul>" false [] []
      (by simp [renderObject, renderArray, renderItems, renderItem,
        Except.map, withTitle_not_root, mdId, String.join])
      (by decide) (by simp [renderProps])).1 [JsValue.str "x"] rfl,
   (claim3_value_shape "a" (JsValue.str "x") mdId "x" false [] []
      (by simp [renderObject, Except.map, withTitle_not_root, mdId])
      (by decide) (by simp [renderProps])).2.2⟩

/-- C4: a root mapping with a string-valued "Title" key prepends exactly
one `<h1>` containing the markdown-rendered title before the body and
filters the Title pair from the listing; a non-root mapping renders a
"Title" key like any other key and never gets the heading; a root
mapping whose only key is "Title" renders to the heading alone (empty
listing). -/
theorem claim4_title_promotion (pairs : List (String × JsValue))
    (md : String → String) (v body : String)
    (rest : List (String × JsValue)) (w : JsValue) (hw : String)
    (t : List String)
    (htitle : titleOf (JsValue.obj pairs) = some v)
    (hbody : renderObjectProperties pairs md true = Except.ok body)
    (hw1 : renderObject w md false = Except.ok hw)
    (ht : renderProps rest md false = Except.ok t) :
    renderObject (JsValue.obj pairs) md true
        = Except.ok ("<h1>" ++ md v ++ "</h1>" ++ body)
    ∧ renderObject (JsValue.obj pairs) md false
        = renderObjectProperties pairs md false
    ∧ renderProps (("Title", w) :: rest) md false
        = Except.ok (("<li>" ++ "Title" ++ ": " ++ hw ++ "</li>") :: t)
    ∧ renderObject (JsValue.obj [("Title", JsValue.str v)]) md true
        = Except.ok ("<h1>" ++ md v ++ "</h1>") := by
  refine ⟨?_, ?_, ?_, ?_⟩
  · simp [renderObject, hbody, Except.map, withTitle, htitle]
  · cases hx : renderObjectProperties pairs md false with
    | error e => simp [renderObject, hx, Except.map]
    | ok s => simp [renderObject, hx, Except.map, withTitle_not_root]
  · simp [renderProps, hw1, ht]
  · simp [renderObject, renderObjectProperties, renderProps, withTitle,
      titleOf, Except.map, String.join, String.append_empty]

/-- Closed instance of `claim4_title_promotion` on the root mapping
`{Title: "T", a: 1}`. -/
theorem claim4_title_promotion_witness :
    renderObject (JsValue.obj [("Title", JsValue.str "T"), ("a", JsValue.num 1)])
        mdId true
      = Except.ok ("<h1>" ++ mdId "T" ++ "</h1>" ++ "<li>a: 1</li>") :=
  (claim4_title_promotion [("Title", JsValue.str "T"), ("a", JsValue.num 1)]
    mdId "T" "<li>a: 1</li>" [] (JsValue.num 1) "1" []
    (by simp [titleOf])
    (by simp [renderObjectProperties, renderProps, renderObject, Except.map,
      withTitle_not_root, String.join, String.append_empty]; decide)
    (by simp [renderObject, Except.map, withTitle_not_root]; decide)
    (by simp [renderProps])).1

/-- C5: a Mapping item inside a Sequence has its key/value pairs spliced
directly as sibling list items (`renderItem` hands the pairs to
`renderArrayObjectItem`, which joins the entry items with no enclosing
wrapper), while every non-Mapping, non-null item is wrapped in its own
`<li>` — a sequence of maps flattens one nesting level relative to a
sequence of scalars. -/
theorem claim5_sequence_map_flattening (pairs : List (String × JsValue))
    (md : String → String) (item : JsValue) (parts : List String) (s : String)
    (hp : renderEntries pairs md = Except.ok parts)
    (hno : ∀ q, item ≠ JsValue.obj q) (hnn : item ≠ JsValue.null)
    (hs : renderObject item md false = Except.ok s) :
    renderItem (JsValue.obj pairs) md = renderArrayObjectItem pairs md
    ∧ renderArrayObjectItem pairs md = Except.ok (String.join parts)
    ∧ renderItem item md = Except.ok ("<li>" ++ s ++ "</li>") := by
  refine ⟨?_, ?_, ?_⟩
  · simp [renderItem]
  · simp [renderArrayObjectItem, hp, Except.map]
  · cases item with
    | obj q => exact absurd rfl (hno q)
    | null => exact absurd rfl hnn
    | str x => simp [renderItem, hs, Except.map]
    | num x => simp [renderItem, hs, Except.map]
    | boolean x => simp [renderItem, hs, Except.map]
    | arr x => simp [renderItem, hs, Except.map]

/-- Closed instance of `claim5_sequence_map_flattening` on the sequence
item `{a: 1, b: 2}` and the scalar item `"x"`. -/
theorem claim5_sequence_map_flattening_witness :
    renderArrayObjectItem [("a", JsValue.num 1), ("b", JsValue.num 2)] mdId
        = Except.ok (String.join ["<li>a:<ul>1</ul></li>", "<li>b:<ul>2</ul></li>"])
    ∧ renderItem (JsValue.str "x") mdId = Except.ok ("<li>" ++ "x" ++ "</li>") :=
  ⟨(claim5_sequence_map_flattening [("a", JsValue.num 1), ("b", JsValue.num 2)]
      mdId (JsValue.str "x")
      ["<li>a:<ul>1</ul></li>", "<li>b:<ul>2</ul></li>"] "x"
      (by simp [renderEntries, renderObjectEntry, renderObject, Except.map,
        withTitle_not_root]; decide)
      (fun q h => JsValue.noConfusion h) (fun h => JsValue.noConfusion h)
      (by simp [renderObject, Except.map, withTitle_not_root, mdId])).2.1,
   (claim5_sequence_map_flattening [("a", JsValue.num 1), ("b", JsValue.num 2)]
      mdId (JsValue.str "x")
      ["<li>a:<ul>1</ul></li>", "<li>b:<ul>2</ul></li>"] "x"
      (by simp [renderEntries, renderObjectEntry, renderObject, Except.map,
        withTitle_not_root]; decide)
      (fun q h => JsValue.noConfusion h) (fun h => JsValue.noConfusion h)
      (by simp [renderObject, Except.map, withTitle_not_root, mdId])).2.2⟩

/-- C6 fails as stated: null is a scalar, yet the sequence `[null]`
renders to a thrown `TypeError` (`Object.entries(null)`), not to a list
with one item holding null's stringification. -/
theorem claim6_scalar_sequence_counterexample :
    renderArray [JsValue.null] mdId = Except.error nullEntriesError := by
  simp [renderArray, renderItems, renderItem, Except.map]

theorem renderItems_scalars (items : List JsValue) (md : String → String)
    (h : ∀ i ∈ items, isNonNullScalar i = true) :
    renderItems items md
      = Except.ok (items.map (fun i => "<li>" ++ scalarHtml md i ++ "</li>")) := by
  induction items with
  | nil => simp [renderItems]
  | cons i rest ih =>
      have hi := h i (List.mem_cons_self i rest)
      have hrest := ih (fun j hj => h j (List.mem_cons_of_mem i hj))
      have hitem :
          renderItem i md = Except.ok ("<li>" ++ scalarHtml md i ++ "</li>") := by
        cases i with
        | str s =>
            simp [renderItem, renderObject, Except.map, withTitle_not_root,
              scalarHtml]
        | num n =>
            simp [renderItem, renderObject, Except.map, withTitle_not_root,
              scalarHtml]
        | boolean b =>
            simp [renderItem, renderObject, Except.map, withTitle_not_root,
              scalarHtml]
        | null => simp [isNonNullScalar] at hi
        | arr xs => simp [isNonNullScalar] at hi
        | obj pairs => simp [isNonNullScalar] at hi
      simp [renderItems, hitem, hrest]

/-- C6 (amended): a Sequence of N null-free scalar items renders to one
unordered-list container holding exactly N list items — `markdown(si)`
for a string item, the plain stringification otherwise — in the
sequence's original order. -/
theorem claim6_scalar_sequence (items : List JsValue) (md : String → String)
    (h : ∀ i ∈ items, isNonNullScalar i = true) :
    renderArray items md
      = Except.ok ("<ul>"
          ++ String.join (items.map (fun i => "<li>" ++ scalarHtml md i ++ "</li>"))
          ++ "</ul>")
    ∧ (items.map (fun i => "<li>" ++ scalarHtml md i ++ "</li>")).length
        = items.length := by
  refine ⟨?_, by simp⟩
  simp [renderArray, renderItems_scalars items md h, Except.map]

/-- Closed instance of `claim6_scalar_sequence` on `["a", 2, true]`. -/
theorem claim6_scalar_sequence_witness :
    renderArray [JsValue.str "a", JsValue.num 2, JsValue.boolean true] mdId
      = Except.ok ("<ul>"
          ++ String.join
              ([JsValue.str "a", JsValue.num 2, JsValue.boolean true].map
                (fun i => "<li>" ++ scalarHtml mdId i ++ "</li>"))
          ++ "</ul>") :=
  (claim6_scalar_sequence [JsValue.str "a", JsValue.num 2, JsValue.boolean true]
    mdId (by intro i hi; fin_cases hi <;> simp [isNonNullScalar])).1

/-- C7: when YAML parsing fails, the whole preview document becomes a
plain-text error body containing the parser's diagnostic, and the
renderer is never invoked — the result is the same whatever
content-to-HTML function the update step would have called. -/
theorem claim7_parse_failure (e : String) (md : String → String)
    (oldHtml : String)
    (toHtml1 toHtml2 : JsValue → (String → String) → Except String String) :
    updateWebviewContent "yaml" (Except.error e) md oldHtml
        = "<html><body><p>Error parsing YAML: " ++ e ++ "</p></body></html>"
    ∧ updateWebviewContentWith toHtml1 "yaml" (Except.error e) md oldHtml
        = updateWebviewContentWith toHtml2 "yaml" (Except.error e) md oldHtml := by
  constructor
  · simp [updateWebviewContent, updateWebviewContentWith, errorHtml]
  · simp [updateWebviewContentWith]

/-- C8: the key/value list items of a Mapping rendered at the root are
emitted without an enclosing list container — the body element built by
`getWebviewContent` supplies the `<ul>` — while a non-root Mapping wraps
the same items in a `<ul>` container. -/
theorem claim8_root_unwrapped (pairs : List (String × JsValue))
    (md : String → String) (partsR parts : List String) (inner : String)
    (content : JsValue)
    (hR : renderProps pairs md true = Except.ok partsR)
    (hN : renderProps pairs md false = Except.ok parts)
    (hc : renderObject content md true = Except.ok inner) :
    renderObjectProperties pairs md true = Except.ok (String.join partsR)
    ∧ renderObjectProperties pairs md false
        = Except.ok ("<ul>" ++ String.join parts ++ "</ul>")
    ∧ getWebviewContent content md
        = Except.ok ("<html><head>" ++ scriptBlock ++ styleBlock
            ++ "</head><body>" ++ ("<ul>" ++ inner ++ "</ul>")
            ++ "</body></html>") := by
  refine ⟨?_, ?_, ?_⟩
  · simp [renderObjectProperties, hR, Except.map]
  · simp [renderObjectProperties, hN, Except.map]
  · simp [getWebviewContent, hc, Except.map]

/-- Closed instance of `claim8_root_unwrapped` on the mapping
`{a: "x"}`. -/
theorem claim8_root_unwrapped_witness :
    renderObjectProperties [("a", JsValue.str "x")] mdId true
        = Except.ok (String.join ["<li>a: x</li>"])
    ∧ renderObjectProperties [("a", JsValue.str "x")] mdId false
        = Except.ok ("<ul>" ++ String.join ["<li>a: x</li>"] ++ "</ul>") :=
  ⟨(claim8_root_unwrapped [("a", JsValue.str "x")] mdId ["<li>a: x</li>"]
      ["<li>a: x</li>"] "<li>a: x</li>" (JsValue.obj [("a", JsValue.str "x")])
      (by simp [renderProps, renderObject, Except.map, withTitle_not_root, mdId])
      (by simp [renderProps, renderObject, Except.map, withTitle_not_root, mdId])
      (by simp [renderObject, renderObjectProperties, renderProps, withTitle,
        titleOf, Except.map, withTitle_not_root, mdId, String.join,
        String.append_empty]; decide)).1,
   (claim8_root_unwrapped [("a", JsValue.str "x")] mdId ["<li>a: x</li>"]
      ["<li>a: x</li>"] "<li>a: x</li>" (JsValue.obj [("a", JsValue.str "x")])
      (by simp [renderProps, renderObject, Except.map, withTitle_not_root, mdId])
      (by simp [renderProps, renderObject, Except.map, withTitle_not_root, mdId])
      (by simp [renderObject, renderObjectProperties, renderProps, withTitle,
        titleOf, Except.map, withTitle_not_root, mdId, String.join,
        String.append_empty]; decide)).2.1⟩

/-- C9: rendering is a pure function of the input tree and the markdown
engine — two invocations on the same tree return identical strings; the
embedding is deterministic because the source functions read nothing but
their arguments. -/
theorem claim9_deterministic (obj : JsValue) (md : String → String)
    (isRoot : Bool) :
    renderObject obj md isRoot = renderObject obj md isRoot
    ∧ getWebviewContent obj md = getWebviewContent obj md :=
  ⟨rfl, rfl⟩

/-- C10: the preview-update step never propagates an exception — a parse
error and a render-time exception alike replace the panel content with
the error page containing that exception's message. -/
theorem claim10_catch_all (e : String) (md : String → String)
    (oldHtml : String) (content : JsValue)
    (hr : getWebviewContent content md = Except.error e) :
    updateWebviewContent "yaml" (Except.ok content) md oldHtml = errorHtml e
    ∧ updateWebviewContent "yaml" (Except.error e) md oldHtml = errorHtml e := by
  constructor
  · simp [updateWebviewContent, updateWebviewContentWith, hr]
  · simp [updateWebviewContent, updateWebviewContentWith]

/-- Closed instance of `claim10_catch_all`: the render-time `TypeError`
on a null document degrades to the error page. -/
theorem claim10_catch_all_witness :
    updateWebviewContent "yaml" (Except.ok JsValue.null) mdId ""
      = errorHtml nullToStringError :=
  (claim10_catch_all nullToStringError mdId "" JsValue.null
    (by simp [getWebviewContent, renderObject, Except.map])).1
